import Mathlib

/-!
Verification of the core of the bun-monorepo-template backend: the
Result/AppError kernel (packages/shared/src/result.ts), the User and Item
domain entities, the auth use-cases (register, login) and the item
use-cases (get, update, activate, deactivate, delete) with their
ownership-scoped repository.

Modelling conventions of the shallow embedding:
- JavaScript Date timestamps are modelled as natural numbers (milliseconds);
  a call to `new Date()` inside an operation becomes an explicit `now`
  parameter.
- `crypto.randomUUID()` becomes an explicit `freshId` parameter.
- `Bun.password.hash` / `Bun.password.verify` and `sign` (JWT) are external
  collaborators and become function parameters.
- The SQL-backed repositories become pure functions over a `List` of rows;
  each query keeps exactly the WHERE clauses of the source.
- `throw` (in `unwrap`) is modelled with `Except`.
- JavaScript `String.prototype.trim` is modelled by `jsTrim`, which removes
  leading and trailing whitespace characters; `.length` is the Lean string
  length (identical on the ASCII inputs of interest).
-/

namespace Core

/-- The Result sum type of packages/shared/src/result.ts:
`{ ok: true; value: T } | { ok: false; error: E }`. -/
inductive Result (T : Type) (E : Type) where
  | ok (value : T)
  | err (error : E)
deriving DecidableEq, Repr

namespace Result

/-- `isOk` from result.ts. -/
def isOk {T E : Type} : Result T E → Bool
  | .ok _ => true
  | .err _ => false

/-- `isErr` from result.ts. -/
def isErr {T E : Type} : Result T E → Bool
  | .ok _ => false
  | .err _ => true

/-- `map` from result.ts: transforms the success payload, leaves a failure
untouched. -/
def map {T U E : Type} (result : Result T E) (fn : T → U) : Result U E :=
  match result with
  | .ok v => .ok (fn v)
  | .err e => .err e

/-- `unwrap` from result.ts: returns the payload of an ok, throws on an err.
The thrown `Error` is modelled as the `Except.error` branch carrying the
message built from the serialized error (`JSON.stringify` is the
`serialize` parameter). -/
def unwrap {T E : Type} (result : Result T E) (serialize : E → String) :
    Except String T :=
  match result with
  | .ok v => .ok v
  | .err e => .error ("Tried to unwrap an Err: " ++ serialize e)

end Result

/-- The closed `ErrorCode` union of result.ts. -/
inductive ErrorCode where
  | VALIDATION_ERROR
  | NOT_FOUND
  | UNAUTHORIZED
  | CONFLICT
  | INTERNAL_ERROR
deriving DecidableEq, Repr

/-- `AppError` from result.ts. -/
structure AppError where
  code : ErrorCode
  message : String
deriving DecidableEq, Repr

/-- Error factory `validationError` from result.ts. -/
def validationError (message : String) : AppError :=
  { code := ErrorCode.VALIDATION_ERROR, message := message }

/-- Error factory `notFoundError` from result.ts. -/
def notFoundError (message : String) : AppError :=
  { code := ErrorCode.NOT_FOUND, message := message }

/-- Error factory `unauthorizedError` from result.ts. -/
def unauthorizedError (message : String) : AppError :=
  { code := ErrorCode.UNAUTHORIZED, message := message }

/-- Error factory `conflictError` from result.ts. -/
def conflictError (message : String) : AppError :=
  { code := ErrorCode.CONFLICT, message := message }

/-- Error factory `internalError` from result.ts. -/
def internalError (message : String) : AppError :=
  { code := ErrorCode.INTERNAL_ERROR, message := message }

/-- The error code carried by a failure result, if any. -/
def errorCodeOf {T : Type} : Result T AppError → Option ErrorCode
  | .ok _ => none
  | .err e => some e.code

end Core

namespace Core

/-- C10: `unwrap(r)` returns the success payload when `r` is ok; when `r` is
err it throws (modelled by the `Except.error` branch) rather than returning a
payload, with the message built from the serialized error; `map` by contrast
never moves a result between the ok and err branches, so `unwrap` is the only
Result-kernel helper with a throwing branch. -/
theorem unwrap_ok_returns_err_throws (T E : Type) (serialize : E → String) :
    (∀ v : T, Result.unwrap (Result.ok (E := E) v) serialize = Except.ok v) ∧
    (∀ e : E, Result.unwrap (Result.err (T := T) e) serialize =
      Except.error ("Tried to unwrap an Err: " ++ serialize e)) ∧
    (∀ (e : E) (v : T),
      Result.unwrap (Result.err (T := T) e) serialize ≠ Except.ok v) ∧
    (∀ (r : Result T E) (fn : T → T), (Result.map r fn).isOk = r.isOk) := by
  refine ⟨fun v => rfl, fun e => rfl, fun e v h => ?_, fun r fn => ?_⟩
  · exact Except.noConfusion h
  · cases r <;> rfl

end Core

namespace Core

/-- JavaScript `String.prototype.trim`: removes leading and trailing
whitespace characters. -/
def jsTrim (s : String) : String :=
  String.mk (((s.data.dropWhile Char.isWhitespace).reverse.dropWhile
    Char.isWhitespace).reverse)

/-- The two-state activation flag of an item (`ItemStatus` in the shared
schemas). -/
inductive ItemStatus where
  | active
  | inactive
deriving DecidableEq, Repr

/-- The Item entity (modules/items domain class). `createdAt`/`updatedAt`
are Date timestamps, modelled as naturals. -/
structure Item where
  id : String
  name : String
  description : String
  status : ItemStatus
  userId : String
  createdAt : Nat
  updatedAt : Nat
deriving DecidableEq, Repr

namespace Item

/-- `Item.create(name, description, userId)`: validates, then constructs the
item with trimmed fields, status `inactive`, and `createdAt = updatedAt =
now`. `crypto.randomUUID()` is the `freshId` parameter and `new Date()` the
`now` parameter. -/
def create (name description userId freshId : String) (now : Nat) :
    Result Item AppError :=
  if (jsTrim name).length = 0 then
    .err (validationError "Item name cannot be empty")
  else if name.length > 200 then
    .err (validationError "Item name cannot exceed 200 characters")
  else if description.length > 1000 then
    .err (validationError "Item description cannot exceed 1000 characters")
  else
    .ok { id := freshId, name := jsTrim name, description := jsTrim description,
          status := ItemStatus.inactive, userId := userId,
          createdAt := now, updatedAt := now }

/-- `Item.fromPersistence(props)`: trusted reconstruction, no validation. -/
def fromPersistence (props : Item) : Item := props

/-- `activate()`: fails if already active, else transitions to active and
stamps `updatedAt`. The source mutates `this` and returns `ok(this)`; the
embedding returns the updated value. -/
def activate (i : Item) (now : Nat) : Result Item AppError :=
  if i.status = ItemStatus.active then
    .err (validationError "Item is already active")
  else
    .ok { i with status := ItemStatus.active, updatedAt := now }

/-- `deactivate()`: symmetric to `activate()`. -/
def deactivate (i : Item) (now : Nat) : Result Item AppError :=
  if i.status = ItemStatus.inactive then
    .err (validationError "Item is already inactive")
  else
    .ok { i with status := ItemStatus.inactive, updatedAt := now }

/-- The fresh value constructed at the end of `updateDetails`: each supplied
field is trimmed, each unspecified field keeps its prior value; `status`,
`id`, `userId`, `createdAt` are carried over and `updatedAt` is stamped. -/
def applyDetails (i : Item) (nameOpt descOpt : Option String) (now : Nat) :
    Item :=
  { id := i.id,
    name := match nameOpt with | some n => jsTrim n | none => i.name,
    description := match descOpt with | some d => jsTrim d | none => i.description,
    status := i.status,
    userId := i.userId,
    createdAt := i.createdAt,
    updatedAt := now }

/-- `updateDetails(name?, description?)`: re-validates each supplied field,
then builds the fresh value. -/
def updateDetails (i : Item) (nameOpt descOpt : Option String) (now : Nat) :
    Result Item AppError :=
  match nameOpt with
  | some name =>
    if (jsTrim name).length = 0 then
      .err (validationError "Item name cannot be empty")
    else if name.length > 200 then
      .err (validationError "Item name cannot exceed 200 characters")
    else
      match descOpt with
      | some d =>
        if d.length > 1000 then
          .err (validationError "Item description cannot exceed 1000 characters")
        else .ok (applyDetails i nameOpt descOpt now)
      | none => .ok (applyDetails i nameOpt descOpt now)
  | none =>
    match descOpt with
    | some d =>
      if d.length > 1000 then
        .err (validationError "Item description cannot exceed 1000 characters")
      else .ok (applyDetails i nameOpt descOpt now)
    | none => .ok (applyDetails i nameOpt descOpt now)

end Item

end Core

namespace Core

/-- The `ItemResponse` shape returned by `Item.toResponse()`. `toISOString()`
is an injective serialization of the timestamp; the embedding keeps the
numeric timestamp. -/
structure ItemResponse where
  id : String
  name : String
  description : String
  status : ItemStatus
  createdAt : Nat
  updatedAt : Nat
deriving DecidableEq, Repr

/-- `Item.toResponse()`: projects every field of the item. -/
def Item.toResponse (i : Item) : ItemResponse :=
  { id := i.id, name := i.name, description := i.description,
    status := i.status, createdAt := i.createdAt, updatedAt := i.updatedAt }

/-- The single quote character, as it appears inside the not-found
message. -/
def sq : String := (Char.ofNat 39).toString

/-- The message of the not-found error produced by the item use-cases:
`Item with id (quoted id) not found`. -/
def itemNotFoundMsg (id : String) : String :=
  "Item with id " ++ sq ++ id ++ sq ++ " not found"

/-- `ItemsRepository.findById(id, userId)`: SELECT with
`WHERE id = id AND userId = userId` over the items table (a list of
rows). -/
def findById (db : List Item) (id userId : String) : Option Item :=
  db.find? (fun it => decide (it.id = id ∧ it.userId = userId))

/-- `ItemsRepository.create(item)`: INSERT of the row. -/
def repoCreate (db : List Item) (item : Item) : List Item :=
  db ++ [item]

/-- `ItemsRepository.update(item)`: UPDATE of name, description, status and
updatedAt `WHERE id = item.id AND userId = item.userId`. -/
def repoUpdate (db : List Item) (item : Item) : List Item :=
  db.map (fun it =>
    if it.id = item.id ∧ it.userId = item.userId then
      { it with name := item.name, description := item.description,
                status := item.status, updatedAt := item.updatedAt }
    else it)

/-- `ItemsRepository.delete(id, userId)`: SELECT first; when nothing
matches return `false` and leave the table unchanged, otherwise DELETE
`WHERE id = id AND userId = userId` and return `true`. -/
def repoDelete (db : List Item) (id userId : String) : Bool × List Item :=
  match findById db id userId with
  | none => (false, db)
  | some _ =>
    (true, db.filter (fun it => !(decide (it.id = id ∧ it.userId = userId))))

/-- `getItemOrFail` of the items service (identical to the resolution step
inlined in every single-item use-case): resolve by `(id, userId)`; a miss
yields the not-found error. -/
def getItemOrFail (db : List Item) (id userId : String) :
    Result Item AppError :=
  match findById db id userId with
  | none => .err (notFoundError (itemNotFoundMsg id))
  | some item => .ok item

/-- The GetItem use-case: resolve, then project. -/
def getItem (db : List Item) (id userId : String) :
    Result ItemResponse AppError :=
  match findById db id userId with
  | none => .err (notFoundError (itemNotFoundMsg id))
  | some item => .ok item.toResponse

/-- The `UpdateItemInput` shape: independently optional name and
description. -/
structure UpdateItemInput where
  name : Option String
  description : Option String
deriving DecidableEq, Repr

/-- The UpdateItem use-case: resolve, call `updateDetails`, persist, project.
Returns the result together with the items table after the call. -/
def updateItem (db : List Item) (id : String) (input : UpdateItemInput)
    (userId : String) (now : Nat) :
    Result ItemResponse AppError × List Item :=
  match findById db id userId with
  | none => (.err (notFoundError (itemNotFoundMsg id)), db)
  | some item =>
    match item.updateDetails input.name input.description now with
    | .err e => (.err e, db)
    | .ok updated => (.ok updated.toResponse, repoUpdate db updated)

/-- The ActivateItem use-case: resolve, transition, persist, project. -/
def activateItem (db : List Item) (id userId : String) (now : Nat) :
    Result ItemResponse AppError × List Item :=
  match findById db id userId with
  | none => (.err (notFoundError (itemNotFoundMsg id)), db)
  | some item =>
    match item.activate now with
    | .err e => (.err e, db)
    | .ok activated => (.ok activated.toResponse, repoUpdate db activated)

/-- The DeactivateItem use-case: resolve, transition, persist, project. -/
def deactivateItem (db : List Item) (id userId : String) (now : Nat) :
    Result ItemResponse AppError × List Item :=
  match findById db id userId with
  | none => (.err (notFoundError (itemNotFoundMsg id)), db)
  | some item =>
    match item.deactivate now with
    | .err e => (.err e, db)
    | .ok deactivated => (.ok deactivated.toResponse, repoUpdate db deactivated)

/-- The DeleteItem use-case: ask the repository to delete by `(id, userId)`;
`false` yields the not-found error, success returns a valueless ok. -/
def deleteItem (db : List Item) (id userId : String) :
    Result Unit AppError × List Item :=
  match repoDelete db id userId with
  | (false, db2) => (.err (notFoundError (itemNotFoundMsg id)), db2)
  | (true, db2) => (.ok (), db2)

end Core

namespace Core

/-- The User entity (modules/auth domain class). `UserProps` has exactly the
same fields, so the same structure serves for both. -/
structure User where
  id : String
  email : String
  name : String
  passwordHash : String
  createdAt : Nat
deriving DecidableEq, Repr

/-- The response shape of `User.toResponse()`: exactly id, email and name;
no passwordHash field and no createdAt field exist in this shape. -/
structure UserResponse where
  id : String
  email : String
  name : String
deriving DecidableEq, Repr

/-- `User.create(props)`: validates that the email contains an at sign and
that the name is non-empty after trimming; on success wraps the props
unchanged. -/
def User.create (props : User) : Result User AppError :=
  if props.email.data.contains (Char.ofNat 64) = false then
    .err (validationError "Invalid email format")
  else if (jsTrim props.name).length = 0 then
    .err (validationError "Name cannot be empty")
  else
    .ok props

/-- `User.fromPersistence(props)`: trusted reconstruction. -/
def User.fromPersistence (props : User) : User := props

/-- `User.toResponse()`: projects `{id, email, name}`, omitting
`passwordHash` and `createdAt`. -/
def User.toResponse (u : User) : UserResponse :=
  { id := u.id, email := u.email, name := u.name }

/-- `AuthRepository.findByEmail(email)` over the users table. -/
def findByEmail (db : List User) (email : String) : Option User :=
  db.find? (fun u => decide (u.email = email))

/-- The `AuthResponse` success payload `{token, user}`. -/
structure AuthResponse where
  token : String
  user : UserResponse
deriving DecidableEq, Repr

/-- `LoginInput` `{email, password}`. -/
structure LoginInput where
  email : String
  password : String
deriving DecidableEq, Repr

/-- `RegisterInput` `{email, password, name}`. -/
structure RegisterInput where
  email : String
  password : String
  name : String
deriving DecidableEq, Repr

/-- The Login use-case (`createLogin` / `authService.login`): look up by
email, fail UNAUTHORIZED when absent; verify the password against the
stored hash (`Bun.password.verify` is the `verify` parameter), fail with
the identical UNAUTHORIZED error when it does not match; otherwise sign a
token over the user id and email and return the projection. -/
def login (db : List User) (verify : String → String → Bool)
    (sign : String → String → String) (input : LoginInput) :
    Result AuthResponse AppError :=
  match findByEmail db input.email with
  | none => .err (unauthorizedError "Invalid email or password")
  | some user =>
    if verify input.password user.passwordHash then
      .ok { token := sign user.id user.email, user := user.toResponse }
    else
      .err (unauthorizedError "Invalid email or password")

/-- The observable side effects the Register use-case can perform after the
duplicate-email check, in source order: hashing the password, persisting the
created user, issuing the token. -/
inductive AuthEffect where
  | hashPassword (password : String)
  | persistUser (id : String)
  | issueToken (userId : String)
deriving DecidableEq, Repr

/-- The Register use-case (`authService.register`): look up by email, fail
CONFLICT when a user exists; otherwise hash the password
(`Bun.password.hash` is the `hash` parameter), build the User via
`User.create` (propagating its validation error), persist it, sign a token
and return the projection. The returned triple is (result, users table
after the call, effects performed after the duplicate check). -/
def register (db : List User) (hash : String → String)
    (sign : String → String → String) (freshId : String) (now : Nat)
    (input : RegisterInput) :
    Result AuthResponse AppError × List User × List AuthEffect :=
  match findByEmail db input.email with
  | some _ => (.err (conflictError "A user with this email already exists"), db, [])
  | none =>
    let passwordHash := hash input.password
    match User.create { id := freshId, email := input.email,
                        name := input.name, passwordHash := passwordHash,
                        createdAt := now } with
    | .err e => (.err e, db, [AuthEffect.hashPassword input.password])
    | .ok user =>
      (.ok { token := sign user.id user.email, user := user.toResponse },
       db ++ [user],
       [AuthEffect.hashPassword input.password,
        AuthEffect.persistUser user.id,
        AuthEffect.issueToken user.id])

end Core

namespace Core

set_option maxRecDepth 8000

/-- Inversion helper: a successful `activate` yields exactly the
active-stamped copy of the item. -/
lemma activate_ok_eq {i j : Item} {now : Nat}
    (h : Item.activate i now = Result.ok j) :
    i.status ≠ ItemStatus.active ∧
    j = { i with status := ItemStatus.active, updatedAt := now } := by
  unfold Item.activate at h
  split_ifs at h with hs
  injection h with h2
  exact ⟨hs, h2.symm⟩

/-- Inversion helper: a successful `deactivate` yields exactly the
inactive-stamped copy of the item. -/
lemma deactivate_ok_eq {i j : Item} {now : Nat}
    (h : Item.deactivate i now = Result.ok j) :
    i.status ≠ ItemStatus.inactive ∧
    j = { i with status := ItemStatus.inactive, updatedAt := now } := by
  unfold Item.deactivate at h
  split_ifs at h with hs
  injection h with h2
  exact ⟨hs, h2.symm⟩

/-- Inversion helper: a successful `updateDetails` yields exactly
`applyDetails`. -/
lemma updateDetails_ok_eq {i j : Item} {nameOpt descOpt : Option String}
    {now : Nat} (h : Item.updateDetails i nameOpt descOpt now = Result.ok j) :
    j = Item.applyDetails i nameOpt descOpt now := by
  cases nameOpt <;> cases descOpt <;>
    simp only [Item.updateDetails] at h <;>
    (try split_ifs at h) <;> simp_all

end Core

namespace Core

set_option maxRecDepth 8000

/-- A 201-character name whose trimmed length is 200: two hundred letters
followed by one space. -/
def longName : String := String.mk (List.replicate 200 'a') ++ " "

/-- C3 counterexample: `Item.create` applied to `longName` fails although the
trimmed name length is 200 (within [1,200]) and the trimmed description
length is within bounds — the upper-bound checks of the source run on the
untrimmed strings. -/
theorem item_create_trimmed_bounds_counterexample :
    (1 ≤ (jsTrim longName).length ∧ (jsTrim longName).length ≤ 200 ∧
      (jsTrim "d").length ≤ 1000) ∧
    (Item.create longName "d" "u1" "i1" 0).isOk = false := by decide

/-- C3 (amended): `Item.create(name, description, userId)` returns ok exactly
when the trimmed name is non-empty, the untrimmed name length is at most 200
and the untrimmed description length is at most 1000; every rejected input
yields an err with code VALIDATION_ERROR. -/
theorem item_create_ok_iff (name description userId freshId : String)
    (now : Nat) :
    ((Item.create name description userId freshId now).isOk = true ↔
      ((jsTrim name).length ≠ 0 ∧ name.length ≤ 200 ∧
        description.length ≤ 1000)) ∧
    (¬((jsTrim name).length ≠ 0 ∧ name.length ≤ 200 ∧
        description.length ≤ 1000) →
      errorCodeOf (Item.create name description userId freshId now) =
        some ErrorCode.VALIDATION_ERROR) := by
  unfold Item.create
  split_ifs with h1 h2 h3 <;>
    simp [Result.isOk, errorCodeOf, validationError] <;> omega

/-- C3 witness: the empty name is rejected with VALIDATION_ERROR. -/
theorem item_create_ok_iff_witness :
    errorCodeOf (Item.create "" "d" "u1" "i1" 0) =
      some ErrorCode.VALIDATION_ERROR :=
  (item_create_ok_iff "" "d" "u1" "i1" 0).2 (by decide)

end Core

namespace Core

/-- A sample inactive item used to instantiate the entity theorems. -/
def item0 : Item :=
  { id := "i1", name := "n", description := "d",
    status := ItemStatus.inactive, userId := "u1",
    createdAt := 0, updatedAt := 0 }

/-- The active-stamped copy of the sample item at time 1. -/
def itemA1 : Item := { item0 with status := ItemStatus.active, updatedAt := 1 }

/-- C4: `activate` succeeds exactly on an inactive item (the status becomes
active) and fails with the VALIDATION_ERROR "Item is already active" on an
active one; `deactivate` behaves symmetrically; and activating twice leaves
the status active after the second, failing, call. A failed transition
returns only the error, so in this pure embedding the pre-call item is
untouched by construction. -/
theorem activate_deactivate_state_machine (i : Item) (now now2 : Nat) :
    (i.status = ItemStatus.inactive →
      Item.activate i now =
        Result.ok { i with status := ItemStatus.active, updatedAt := now }) ∧
    (i.status = ItemStatus.active →
      Item.activate i now =
        Result.err (validationError "Item is already active")) ∧
    (i.status = ItemStatus.active →
      Item.deactivate i now =
        Result.ok { i with status := ItemStatus.inactive, updatedAt := now }) ∧
    (i.status = ItemStatus.inactive →
      Item.deactivate i now =
        Result.err (validationError "Item is already inactive")) ∧
    ((Item.activate i now).isOk = true ↔ i.status = ItemStatus.inactive) ∧
    ((Item.deactivate i now).isOk = true ↔ i.status = ItemStatus.active) ∧
    (∀ j, Item.activate i now = Result.ok j →
      Item.activate j now2 =
        Result.err (validationError "Item is already active") ∧
      j.status = ItemStatus.active) := by
  cases h : i.status <;>
    simp_all [Item.activate, Item.deactivate, Result.isOk]

/-- C4 witness: the sample item activates once and the second activation
fails while the status stays active. -/
theorem activate_deactivate_state_machine_witness :
    Item.activate item0 1 = Result.ok itemA1 ∧
    Item.activate itemA1 2 =
      Result.err (validationError "Item is already active") ∧
    itemA1.status = ItemStatus.active :=
  ⟨(activate_deactivate_state_machine item0 1 2).1 (by decide),
   ((activate_deactivate_state_machine item0 1 2).2.2.2.2.2.2 itemA1
      ((activate_deactivate_state_machine item0 1 2).1 (by decide))).1,
   ((activate_deactivate_state_machine item0 1 2).2.2.2.2.2.2 itemA1
      ((activate_deactivate_state_machine item0 1 2).1 (by decide))).2⟩

/-- C5: every successful mutation (`activate`, `deactivate`, or
`updateDetails`) stamps `updatedAt` with the call time, so under a clock
that has advanced past the stored `updatedAt` the new `updatedAt` is
strictly greater; `createdAt` is carried over unchanged. -/
theorem updatedAt_strictly_advances (i j : Item) (now : Nat)
    (hclock : i.updatedAt < now)
    (hmut : Item.activate i now = Result.ok j ∨
      Item.deactivate i now = Result.ok j ∨
      ∃ nameOpt descOpt,
        Item.updateDetails i nameOpt descOpt now = Result.ok j) :
    i.updatedAt < j.updatedAt ∧ j.createdAt = i.createdAt := by
  rcases hmut with h | h | ⟨nameOpt, descOpt, h⟩
  · rcases activate_ok_eq h with ⟨-, rfl⟩
    exact ⟨hclock, rfl⟩
  · rcases deactivate_ok_eq h with ⟨-, rfl⟩
    exact ⟨hclock, rfl⟩
  · rcases updateDetails_ok_eq h with rfl
    exact ⟨hclock, rfl⟩

/-- C5 witness: activating the sample item at time 1 advances `updatedAt`
from 0 to 1 and keeps `createdAt`. -/
theorem updatedAt_strictly_advances_witness :
    item0.updatedAt < itemA1.updatedAt ∧ itemA1.createdAt = item0.createdAt :=
  updatedAt_strictly_advances item0 itemA1 1 (by decide) (Or.inl (by decide))

/-- C6: a successful `updateDetails` keeps every unspecified optional field
at its prior value and always carries over `status`, `id`, `userId` and
`createdAt` unchanged. -/
theorem updateDetails_frame (i : Item) (nameOpt descOpt : Option String)
    (now : Nat) (j : Item)
    (h : Item.updateDetails i nameOpt descOpt now = Result.ok j) :
    (nameOpt = none → j.name = i.name) ∧
    (descOpt = none → j.description = i.description) ∧
    j.status = i.status ∧ j.id = i.id ∧ j.userId = i.userId ∧
    j.createdAt = i.createdAt := by
  rcases updateDetails_ok_eq h with rfl
  cases nameOpt <;> cases descOpt <;> simp [Item.applyDetails]

/-- C6 witness: updating only the name of the sample item leaves the
description (and status, id, userId, createdAt) unchanged. -/
theorem updateDetails_frame_witness :
    (Item.applyDetails item0 (some "nn") none 1).description =
      item0.description ∧
    (Item.applyDetails item0 (some "nn") none 1).status = item0.status ∧
    (Item.applyDetails item0 (some "nn") none 1).createdAt = item0.createdAt :=
  ⟨(updateDetails_frame item0 (some "nn") none 1
      (Item.applyDetails item0 (some "nn") none 1) (by decide)).2.1 rfl,
   (updateDetails_frame item0 (some "nn") none 1
      (Item.applyDetails item0 (some "nn") none 1) (by decide)).2.2.1,
   (updateDetails_frame item0 (some "nn") none 1
      (Item.applyDetails item0 (some "nn") none 1) (by decide)).2.2.2.2.2⟩

/-- C8: a successful `Item.create` yields status inactive, the trimmed name
and description, the given owner, the freshly supplied id, and
`createdAt = updatedAt = now`. -/
theorem item_create_success_shape (name description userId freshId : String)
    (now : Nat) (j : Item)
    (h : Item.create name description userId freshId now = Result.ok j) :
    j.status = ItemStatus.inactive ∧ j.name = jsTrim name ∧
    j.description = jsTrim description ∧ j.userId = userId ∧
    j.id = freshId ∧ j.createdAt = now ∧ j.updatedAt = now := by
  unfold Item.create at h
  split_ifs at h
  injection h with h2
  subst h2
  exact ⟨rfl, rfl, rfl, rfl, rfl, rfl, rfl⟩

/-- C8 witness: creating with name "ok" and description "d" yields the
expected inactive item. -/
theorem item_create_success_shape_witness :
    ({ id := "i1", name := "ok", description := "d",
       status := ItemStatus.inactive, userId := "u1",
       createdAt := 0, updatedAt := 0 } : Item).status = ItemStatus.inactive ∧
    ({ id := "i1", name := "ok", description := "d",
       status := ItemStatus.inactive, userId := "u1",
       createdAt := 0, updatedAt := 0 } : Item).name = jsTrim "ok" :=
  ⟨(item_create_success_shape "ok" "d" "u1" "i1" 0 _ (by decide)).1,
   (item_create_success_shape "ok" "d" "u1" "i1" 0 _ (by decide)).2.1⟩

end Core

namespace Core

/-- A lookup scoped by `(id, userId)` misses when no row satisfies both
predicates. -/
lemma findById_eq_none {db : List Item} {iid uid : String}
    (h : ∀ it ∈ db, ¬(it.id = iid ∧ it.userId = uid)) :
    findById db iid uid = none := by
  unfold findById
  exact List.find?_eq_none.mpr (fun it hit => by simpa using h it hit)

/-- C1: an item that exists but is owned by A is invisible to B: every
single-item use-case invoked by B on its id fails with the not-found error,
the very same error value (same code, same message) the use-case returns on
a table holding no item with that id at all, and no such call can return an
UNAUTHORIZED error. -/
theorem cross_user_access_not_found
    (db db2 : List Item) (iid uidA uidB : String)
    (hne : uidB ≠ uidA)
    (hOwner : ∀ it ∈ db, it.id = iid → it.userId = uidA)
    (hExists : ∃ it ∈ db, it.id = iid ∧ it.userId = uidA)
    (hAbsent : ∀ it ∈ db2, it.id ≠ iid)
    (input : UpdateItemInput) (nowU nowA nowD : Nat) :
    getItem db iid uidB = Result.err (notFoundError (itemNotFoundMsg iid)) ∧
    (updateItem db iid input uidB nowU).1 =
      Result.err (notFoundError (itemNotFoundMsg iid)) ∧
    (activateItem db iid uidB nowA).1 =
      Result.err (notFoundError (itemNotFoundMsg iid)) ∧
    (deactivateItem db iid uidB nowD).1 =
      Result.err (notFoundError (itemNotFoundMsg iid)) ∧
    (deleteItem db iid uidB).1 =
      Result.err (notFoundError (itemNotFoundMsg iid)) ∧
    getItem db iid uidB = getItem db2 iid uidB ∧
    (updateItem db iid input uidB nowU).1 =
      (updateItem db2 iid input uidB nowU).1 ∧
    (activateItem db iid uidB nowA).1 = (activateItem db2 iid uidB nowA).1 ∧
    (deactivateItem db iid uidB nowD).1 =
      (deactivateItem db2 iid uidB nowD).1 ∧
    (deleteItem db iid uidB).1 = (deleteItem db2 iid uidB).1 ∧
    (∀ m, getItem db iid uidB ≠ Result.err (unauthorizedError m)) := by
  have h1 : findById db iid uidB = none :=
    findById_eq_none (fun it hit hconj =>
      hne ((hconj.2.symm.trans (hOwner it hit hconj.1))))
  have h2 : findById db2 iid uidB = none :=
    findById_eq_none (fun it hit hconj => hAbsent it hit hconj.1)
  simp [getItem, updateItem, activateItem, deactivateItem, deleteItem,
    repoDelete, h1, h2, notFoundError, unauthorizedError]

/-- The sample item owned by user A. -/
def itemOwnedByA : Item :=
  { id := "i1", name := "n", description := "d",
    status := ItemStatus.inactive, userId := "A",
    createdAt := 0, updatedAt := 0 }

/-- C1 witness: user B gets the not-found error on the item owned by A, and
the same result as on an empty table. -/
theorem cross_user_access_not_found_witness :
    getItem [itemOwnedByA] "i1" "B" =
      Result.err (notFoundError (itemNotFoundMsg "i1")) ∧
    getItem [itemOwnedByA] "i1" "B" = getItem [] "i1" "B" :=
  ⟨(cross_user_access_not_found [itemOwnedByA] [] "i1" "A" "B" (by decide)
      (by decide) (by decide) (by decide) ⟨none, none⟩ 0 0 0).1,
   (cross_user_access_not_found [itemOwnedByA] [] "i1" "A" "B" (by decide)
      (by decide) (by decide) (by decide) ⟨none, none⟩ 0 0 0).2.2.2.2.2.1⟩

end Core

namespace Core

/-- C2: the two failing branches of Login — unknown email, and known email
with a password that does not verify — both return the err with code
UNAUTHORIZED and the message "Invalid email or password", equal character
for character, so the two results are identical. -/
theorem login_failures_identical
    (db : List User) (verify : String → String → Bool)
    (sign : String → String → String) (input1 input2 : LoginInput)
    (h1 : findByEmail db input1.email = none)
    (u : User) (h2 : findByEmail db input2.email = some u)
    (h3 : verify input2.password u.passwordHash = false) :
    login db verify sign input1 =
      Result.err { code := ErrorCode.UNAUTHORIZED,
                   message := "Invalid email or password" } ∧
    login db verify sign input2 =
      Result.err { code := ErrorCode.UNAUTHORIZED,
                   message := "Invalid email or password" } ∧
    login db verify sign input1 = login db verify sign input2 := by
  simp [login, h1, h2, h3, unauthorizedError]

/-- The sample registered user. -/
def user0 : User :=
  { id := "u1", email := "a@b.c", name := "Alice",
    passwordHash := "h", createdAt := 0 }

/-- C2 witness: with one stored user and a rejecting verifier, login with an
unknown email and login with the stored email give the identical
UNAUTHORIZED error. -/
theorem login_failures_identical_witness :
    login [user0] (fun _ _ => false) (fun a b => a ++ b)
        { email := "x@y.z", password := "p" } =
      Result.err { code := ErrorCode.UNAUTHORIZED,
                   message := "Invalid email or password" } ∧
    login [user0] (fun _ _ => false) (fun a b => a ++ b)
        { email := "x@y.z", password := "p" } =
      login [user0] (fun _ _ => false) (fun a b => a ++ b)
        { email := "a@b.c", password := "p" } :=
  ⟨(login_failures_identical [user0] (fun _ _ => false) (fun a b => a ++ b)
      { email := "x@y.z", password := "p" }
      { email := "a@b.c", password := "p" } (by decide) user0 (by decide)
      rfl).1,
   (login_failures_identical [user0] (fun _ _ => false) (fun a b => a ++ b)
      { email := "x@y.z", password := "p" }
      { email := "a@b.c", password := "p" } (by decide) user0 (by decide)
      rfl).2.2⟩

/-- C7 counterexample: the conflict message produced by Register starts with
a capital A, so it differs from the message the claim states. -/
theorem register_conflict_message_counterexample :
    (register [user0] (fun p => p) (fun a b => a ++ b) "u2" 1
        { email := "a@b.c", password := "pw", name := "Bob" }).1 =
      Result.err { code := ErrorCode.CONFLICT,
                   message := "A user with this email already exists" } ∧
    ({ code := ErrorCode.CONFLICT,
       message := "A user with this email already exists" } : AppError) ≠
      { code := ErrorCode.CONFLICT,
        message := "a user with this email already exists" } := by decide

/-- C7 (amended): when the email already belongs to a stored user, Register
fails with code CONFLICT and the message "A user with this email already
exists" (capitalized as in the source), leaves the users table unchanged,
and performs no effect after the duplicate check: no hashing, no persist,
no token. -/
theorem register_conflict_no_processing
    (db : List User) (hash : String → String)
    (sign : String → String → String) (freshId : String) (now : Nat)
    (input : RegisterInput) (u : User)
    (h : findByEmail db input.email = some u) :
    register db hash sign freshId now input =
      (Result.err (conflictError "A user with this email already exists"),
        db, []) := by
  simp [register, h]

/-- C7 witness: registering the stored email again fails with CONFLICT,
leaving the table unchanged and performing no effects. -/
theorem register_conflict_no_processing_witness :
    register [user0] (fun p => p) (fun a b => a ++ b) "u2" 1
        { email := "a@b.c", password := "pw", name := "Bob" } =
      (Result.err (conflictError "A user with this email already exists"),
        [user0], []) :=
  register_conflict_no_processing [user0] (fun p => p) (fun a b => a ++ b)
    "u2" 1 { email := "a@b.c", password := "pw", name := "Bob" } user0
    (by decide)

end Core

namespace Core

/-- C9: `toResponse()` is exactly the `{id, email, name}` projection of the
stored values; it is insensitive to `passwordHash` and `createdAt` (its
result type has no such fields); and both Login and Register expose the user
in their success payload only through this projection — Login through the
user found by email, Register through the user it creates. -/
theorem toResponse_projection
    (u : User)
    (db : List User) (verify : String → String → Bool)
    (sign : String → String → String) (input : LoginInput)
    (resp : AuthResponse)
    (hlogin : login db verify sign input = Result.ok resp)
    (db2 : List User) (hash : String → String)
    (sign2 : String → String → String) (freshId : String) (now : Nat)
    (rinput : RegisterInput) (out : AuthResponse) (dbOut : List User)
    (effs : List AuthEffect)
    (hreg : register db2 hash sign2 freshId now rinput =
      (Result.ok out, dbOut, effs)) :
    User.toResponse u = { id := u.id, email := u.email, name := u.name } ∧
    (∀ v : User, v.id = u.id → v.email = u.email → v.name = u.name →
      User.toResponse v = User.toResponse u) ∧
    (∃ w : User, findByEmail db input.email = some w ∧
      resp.user = User.toResponse w) ∧
    out.user = User.toResponse
      { id := freshId, email := rinput.email, name := rinput.name,
        passwordHash := hash rinput.password, createdAt := now } := by
  refine ⟨rfl, fun v h1 h2 h3 => by simp [User.toResponse, h1, h2, h3],
    ?_, ?_⟩
  · unfold login at hlogin
    split at hlogin
    next => exact absurd hlogin (by simp)
    next w hfind2 =>
      split at hlogin
      next => injection hlogin with h; exact ⟨w, hfind2, by rw [← h]⟩
      next => exact absurd hlogin (by simp)
  · unfold register at hreg
    cases hfind : findByEmail db2 rinput.email with
    | some w => rw [hfind] at hreg; simp [Prod.ext_iff] at hreg
    | none =>
      rw [hfind] at hreg
      simp only [User.create] at hreg
      split_ifs at hreg <;> simp_all [Prod.ext_iff]
      obtain ⟨h1, -, -⟩ := hreg
      rw [← h1]

/-- C9 witness: a concrete successful login and a concrete successful
registration both expose the user exactly as its `{id, email, name}`
projection. -/
theorem toResponse_projection_witness :
    User.toResponse user0 =
      { id := user0.id, email := user0.email, name := user0.name } ∧
    ({ token := "u1" ++ "a@b.c", user := User.toResponse user0 } :
        AuthResponse).user = User.toResponse user0 :=
  ⟨(toResponse_projection user0 [user0] (fun _ _ => true)
      (fun a b => a ++ b) { email := "a@b.c", password := "p" }
      { token := "u1" ++ "a@b.c", user := User.toResponse user0 }
      (by decide) [] (fun p => p) (fun a b => a ++ b) "u2" 1
      { email := "e@f.g", password := "pw", name := "Bob" }
      { token := "u2" ++ "e@f.g",
        user := { id := "u2", email := "e@f.g", name := "Bob" } }
      [{ id := "u2", email := "e@f.g", name := "Bob", passwordHash := "pw",
         createdAt := 1 }]
      [AuthEffect.hashPassword "pw", AuthEffect.persistUser "u2",
       AuthEffect.issueToken "u2"] (by decide)).1,
   rfl⟩

end Core
